import Mathlib

/-!
Verification development for the codi earnings-reaction trading bot.

The definitions below are a shallow embedding of the Python sources:
`backtester.py` (trade simulation and backtest statistics), `analyzer.py`
and `backtest_full.py` (reaction sampling and scoring), and
`risk_manager.py` (stop-loss sizing and the trading risk gate).
Python floats are modelled as exact rationals, dates as integer day
ordinals, and fallible computations as `Option`.
-/

namespace Codi

/-- One daily OHLC price bar (the fields of a bar that the core logic
reads; `backtester.py` and `backtest_full.py` build rows with
high/low/close used by the simulation and sampling loops). -/
structure Bar where
  high : ℚ
  low : ℚ
  close : ℚ
deriving DecidableEq, Repr

instance : Inhabited Bar := ⟨⟨0, 0, 0⟩⟩

/-- Exit reasons of `Backtester.simulate_trade` (`backtester.py`):
the strings "Take profit hit", "Stop loss hit", "Hold period expired". -/
inductive ExitReason where
  | takeProfit
  | stopLoss
  | holdExpired
deriving DecidableEq, Repr

/-- Result dictionary of `Backtester.simulate_trade` (`backtester.py`
lines 146-157), restricted to the fields the core computes.  The exit
date is represented by the bar of the exit day (`exit_bar`). -/
structure TradeResult where
  entry_price : ℚ
  exit_price : ℚ
  pnl : ℚ
  pnl_percent : ℚ
  take_profit_price : ℚ
  stop_loss_price : ℚ
  exit_reason : ExitReason
  exit_bar : Bar
deriving DecidableEq, Repr

/-- The day loop of `Backtester.simulate_trade` (`backtester.py` lines
120-135): walk the future trading days in order; on each day first test
`row['high'] >= take_profit_price`, then `row['low'] <= stop_loss_price`;
return the first trigger (exit bar, exit price, reason), or `none` if no
trigger fires in the window. -/
def scan_hold_days (tp sl : ℚ) : List Bar → Option (Bar × ℚ × ExitReason)
  | [] => none
  | b :: rest =>
    if tp ≤ b.high then some (b, tp, ExitReason.takeProfit)
    else if b.low ≤ sl then some (b, sl, ExitReason.stopLoss)
    else scan_hold_days tp sl rest

/-- `Backtester.simulate_trade` (`backtester.py` lines 102-157) after
entry resolution: given the entry close price, the target/stop
percentages and the list of future trading days (already truncated to
`hold_days`), compute target prices, run the day loop, fall back to the
close of the last day of the window ("Hold period expired"), and return
the trade result; `none` when no future trading day exists. -/
def simulate_trade (entry_price take_profit_pct stop_loss_pct : ℚ) :
    List Bar → Option TradeResult
  | [] => none
  | d :: ds =>
    let tp := entry_price * (1 + take_profit_pct)
    let sl := entry_price * (1 + stop_loss_pct)
    let exit :=
      match scan_hold_days tp sl (d :: ds) with
      | some e => e
      | none => (ds.getLastD d, (ds.getLastD d).close, ExitReason.holdExpired)
    let pnl := exit.2.1 - entry_price
    some { entry_price := entry_price, exit_price := exit.2.1, pnl := pnl,
           pnl_percent := pnl / entry_price * 100,
           take_profit_price := tp, stop_loss_price := sl,
           exit_reason := exit.2.2, exit_bar := exit.1 }

/-- If the day loop returns an exit on a day whose high reaches the
take-profit level, that exit is a take-profit exit at the take-profit
price (the take-profit test runs before the stop-loss test). -/
theorem scan_hold_days_tp_first (tp sl : ℚ) :
    ∀ (days : List Bar) (b : Bar) (p : ℚ) (r : ExitReason),
      scan_hold_days tp sl days = some (b, p, r) →
      tp ≤ b.high →
      r = ExitReason.takeProfit ∧ p = tp := by
  intro days
  induction days with
  | nil => intro b p r h _; simp [scan_hold_days] at h
  | cons d ds ih =>
    intro b p r h hhigh
    by_cases h1 : tp ≤ d.high
    · rw [scan_hold_days, if_pos h1] at h
      simp only [Option.some.injEq, Prod.mk.injEq] at h
      exact ⟨h.2.2.symm, h.2.1.symm⟩
    · rw [scan_hold_days, if_neg h1] at h
      by_cases h2 : d.low ≤ sl
      · rw [if_pos h2] at h
        simp only [Option.some.injEq, Prod.mk.injEq] at h
        exact absurd (h.1 ▸ hhigh) h1
      · rw [if_neg h2] at h
        exact ih b p r h hhigh

/-- If the day loop finds no trigger, every day of the window stayed
strictly inside the bracket. -/
theorem scan_hold_days_none (tp sl : ℚ) :
    ∀ (days : List Bar), scan_hold_days tp sl days = none →
      ∀ b ∈ days, b.high < tp ∧ sl < b.low := by
  intro days
  induction days with
  | nil => intro _ b hb; cases hb
  | cons d ds ih =>
    intro h b hb
    by_cases h1 : tp ≤ d.high
    · rw [scan_hold_days, if_pos h1] at h; cases h
    · by_cases h2 : d.low ≤ sl
      · rw [scan_hold_days, if_neg h1, if_pos h2] at h; cases h
      · rw [scan_hold_days, if_neg h1, if_neg h2] at h
        rcases List.mem_cons.mp hb with hbd | hbm
        · exact hbd ▸ ⟨lt_of_not_le h1, lt_of_not_le h2⟩
        · exact ih h b hbm

/-- The last element picked by `getLastD` is a member of the cons list. -/
theorem getLastD_mem_cons' {α : Type} :
    ∀ (ds : List α) (d : α), ds.getLastD d ∈ d :: ds := by
  intro ds
  induction ds with
  | nil => intro d; exact List.mem_singleton.mpr rfl
  | cons x xs ih =>
    intro d
    have : (x :: xs).getLastD d = xs.getLastD x := by
      cases xs <;> rfl
    rw [this]
    exact List.mem_cons_of_mem d (ih x)

/-- C1: for every simulated trade, if the exit day's range spans both
trigger levels (high at or above the take-profit price and low at or
below the stop-loss price), the simulator exits with reason take-profit
at exactly the take-profit price, never stop-loss: the take-profit check
runs first in `Backtester.simulate_trade`. -/
theorem simulate_trade_tp_priority
    (entry_price take_profit_pct stop_loss_pct : ℚ)
    (days : List Bar) (res : TradeResult)
    (hres : simulate_trade entry_price take_profit_pct stop_loss_pct days
      = some res)
    (hhigh : res.take_profit_price ≤ res.exit_bar.high)
    (hlow : res.exit_bar.low ≤ res.stop_loss_price) :
    res.exit_reason = ExitReason.takeProfit ∧
      res.exit_price = res.take_profit_price := by
  rcases days with _ | ⟨d, ds⟩
  · simp [simulate_trade] at hres
  · rw [simulate_trade] at hres
    rcases hscan : scan_hold_days (entry_price * (1 + take_profit_pct))
        (entry_price * (1 + stop_loss_pct)) (d :: ds) with _ | ⟨b, p, r⟩
    · rw [hscan] at hres
      simp only at hres
      obtain rfl := (Option.some.inj hres).symm
      have hall := scan_hold_days_none _ _ _ hscan (ds.getLastD d)
        (getLastD_mem_cons' ds d)
      exact absurd hhigh (not_le.mpr hall.1)
    · rw [hscan] at hres
      simp only at hres
      obtain rfl := (Option.some.inj hres).symm
      exact scan_hold_days_tp_first _ _ (d :: ds) b p r hscan hhigh

/-- Concrete day whose range spans both trigger levels. -/
def spanBar : Bar := { high := 112, low := 91, close := 101 }

/-- Concrete expected result for the witness trade. -/
def spanRes : TradeResult :=
  { entry_price := 100, exit_price := 110, pnl := 10, pnl_percent := 10,
    take_profit_price := 110, stop_loss_price := 92,
    exit_reason := ExitReason.takeProfit, exit_bar := spanBar }

/-- C1 witness: entry 100, target +10 percent (110), stop -8 percent
(92); a single day with high 112 and low 91 triggers both levels and
resolves as take-profit at 110. -/
theorem simulate_trade_tp_priority_witness :
    simulate_trade 100 (1/10) (-(2/25)) [spanBar] = some spanRes ∧
      (spanRes.exit_reason = ExitReason.takeProfit ∧
        spanRes.exit_price = spanRes.take_profit_price) :=
  ⟨by norm_num [simulate_trade, scan_hold_days, spanBar, spanRes],
    simulate_trade_tp_priority 100 (1/10) (-(2/25)) [spanBar] spanRes
      (by norm_num [simulate_trade, scan_hold_days, spanBar, spanRes])
      (by norm_num [spanRes, spanBar]) (by norm_num [spanRes, spanBar])⟩

/-- Round half to even toward an integer (the rounding rule of Python's
built-in `round` on an exact value). -/
def roundHalfEven (x : ℚ) : ℤ :=
  let f := ⌊x⌋
  let r := x - f
  if r < 1/2 then f
  else if 1/2 < r then f + 1
  else if f % 2 = 0 then f else f + 1

/-- Python's `round(x, 2)`: round to 2 decimal places, ties to even. -/
def pyRound2 (x : ℚ) : ℚ := (roundHalfEven (100 * x) : ℚ) / 100

/-- `RiskManager.calculate_stop_loss` (`risk_manager.py` lines 144-169):
scale the historical average drawdown by 1.1, force percentages above
-0.08 down to -0.08, force percentages below -0.20 up to -0.20, and
return `entry_price * (1 + pct)` rounded to 2 decimals. -/
def calculate_stop_loss (entry_price avg_drawdown : ℚ) : ℚ :=
  let pct0 := avg_drawdown * (11/10)
  let pct1 := if -(2/25) < pct0 then -(2/25) else pct0
  let pct2 := if pct1 < -(1/5) then -(1/5) else pct1
  pyRound2 (entry_price * (1 + pct2))

/-- C3: the stop-loss price is `entry_price * (1 + pct)` rounded to two
decimals with `pct = avg_drawdown * 1.1` clamped into [-0.20, -0.08]
(values above -0.08 become -0.08, values below -0.20 become -0.20), the
effective percentage always lies in [-0.20, -0.08], and the spec's
example holds: entry 100 with average drawdown -0.25 gives 80.00. -/
theorem calculate_stop_loss_spec (entry_price avg_drawdown : ℚ) :
    calculate_stop_loss entry_price avg_drawdown
      = pyRound2 (entry_price *
          (1 + max (-(1/5)) (min (-(2/25)) (avg_drawdown * (11/10)))))
    ∧ -(1/5) ≤ max (-(1/5)) (min (-(2/25)) (avg_drawdown * (11/10)))
    ∧ max (-(1/5)) (min (-(2/25)) (avg_drawdown * (11/10))) ≤ -(2/25)
    ∧ calculate_stop_loss 100 (-(1/4)) = 80 := by
  refine ⟨?_, le_max_left _ _, max_le (by norm_num) (min_le_left _ _), ?_⟩
  · simp only [calculate_stop_loss]
    split_ifs with h1 h2 h2
    · norm_num at h2
    · rw [min_eq_left h1.le, max_eq_right (by norm_num)]
    · rw [min_eq_right (not_lt.mp h1), max_eq_left h2.le]
    · rw [min_eq_right (not_lt.mp h1), max_eq_right (not_lt.mp h2)]
  · norm_num [calculate_stop_loss, pyRound2, roundHalfEven]

/-- Reason component of `RiskManager.can_trade`; the source returns the
strings "All risk checks passed", "Daily loss limit exceeded: ..%" and
"Max drawdown limit exceeded: ..%", modelled as constructors carrying
the formatted percentage. -/
inductive RiskReason where
  | allRiskChecksPassed
  | dailyLossLimitExceeded (loss_percent : ℚ)
  | maxDrawdownLimitExceeded (drawdown_percent : ℚ)
deriving DecidableEq, Repr

/-- The mutable state of `RiskManager` (`risk_manager.py` lines 21-22):
`daily_start_balance` and `max_drawdown_balance` both start as `None`.
`max_drawdown_balance` is the account high-water mark. -/
structure RiskState where
  daily_start_balance : Option ℚ
  max_drawdown_balance : Option ℚ
deriving DecidableEq, Repr

/-- The state of a freshly constructed `RiskManager`. -/
def initialRiskState : RiskState := ⟨none, none⟩

/-- `RiskManager.set_daily_start_balance` (`risk_manager.py` lines
24-32): store the new daily start balance; initialize the high-water
mark on first call, otherwise raise it to `max(old, balance)`. -/
def set_daily_start_balance (s : RiskState) (balance : ℚ) : RiskState :=
  { daily_start_balance := some balance,
    max_drawdown_balance :=
      match s.max_drawdown_balance with
      | none => some balance
      | some m => some (max m balance) }

/-- `RiskManager.check_daily_loss_limit` (`risk_manager.py` lines
34-53): permissive `(true, 0)` while no daily start balance is set;
otherwise block when the percentage loss from the daily start reaches
the configured limit. -/
def check_daily_loss_limit (max_daily_loss_percent : ℚ) (s : RiskState)
    (current_balance : ℚ) : Bool × ℚ :=
  match s.daily_start_balance with
  | none => (true, 0)
  | some d =>
    let loss_percent := (d - current_balance) / d * 100
    if max_daily_loss_percent ≤ loss_percent then (false, loss_percent)
    else (true, loss_percent)

/-- `RiskManager.check_max_drawdown` (`risk_manager.py` lines 55-74):
permissive `(true, 0)` while no high-water mark is set; otherwise block
when the percentage drawdown from the high-water mark reaches the
configured limit. -/
def check_max_drawdown (max_drawdown_percent : ℚ) (s : RiskState)
    (current_balance : ℚ) : Bool × ℚ :=
  match s.max_drawdown_balance with
  | none => (true, 0)
  | some m =>
    let drawdown_percent := (m - current_balance) / m * 100
    if max_drawdown_percent ≤ drawdown_percent then (false, drawdown_percent)
    else (true, drawdown_percent)

/-- `RiskManager.can_trade` (`risk_manager.py` lines 76-91): run the
daily-loss check, then the max-drawdown check, and report the first
failure; otherwise allow trading. Reads the state, never writes it. -/
def can_trade (max_daily_loss_percent max_drawdown_percent : ℚ)
    (s : RiskState) (current_balance : ℚ) : Bool × RiskReason :=
  let daily := check_daily_loss_limit max_daily_loss_percent s current_balance
  if !daily.1 then (false, RiskReason.dailyLossLimitExceeded daily.2)
  else
    let dd := check_max_drawdown max_drawdown_percent s current_balance
    if !dd.1 then (false, RiskReason.maxDrawdownLimitExceeded dd.2)
    else (true, RiskReason.allRiskChecksPassed)

/-- The operations a live session performs against the `RiskManager`
state: setting the daily start balance at the start of a day, and
`can_trade` balance checks (which never assign state). -/
inductive RiskOp where
  | setStartBalance (balance : ℚ)
  | canTradeQuery (balance : ℚ)
deriving DecidableEq, Repr

/-- State transition of one `RiskManager` operation. -/
def riskStep (s : RiskState) : RiskOp → RiskState
  | RiskOp.setStartBalance b => set_daily_start_balance s b
  | RiskOp.canTradeQuery _ => s

/-- Run a sequence of `RiskManager` operations from a state. -/
def riskRun (s : RiskState) (ops : List RiskOp) : RiskState :=
  ops.foldl riskStep s

/-- Ordering on optional high-water marks: an unset mark precedes
everything; a set mark must stay set and not decrease. -/
def hwm_le : Option ℚ → Option ℚ → Prop
  | none, _ => True
  | some _, none => False
  | some b, some b' => b ≤ b'

theorem hwm_le_refl (o : Option ℚ) : hwm_le o o := by
  cases o
  · exact trivial
  · exact le_refl _

theorem hwm_le_trans :
    ∀ {a b c : Option ℚ}, hwm_le a b → hwm_le b c → hwm_le a c
  | none, _, _, _, _ => trivial
  | some _, none, _, h1, _ => h1.elim
  | some _, some _, none, _, h2 => h2.elim
  | some _, some _, some _, h1, h2 => le_trans h1 h2

theorem hwm_le_step (s : RiskState) (op : RiskOp) :
    hwm_le s.max_drawdown_balance (riskStep s op).max_drawdown_balance := by
  cases op with
  | setStartBalance b =>
    cases hm : s.max_drawdown_balance with
    | none => simp [riskStep, set_daily_start_balance, hm, hwm_le]
    | some m => simp [riskStep, set_daily_start_balance, hm, hwm_le]
  | canTradeQuery _ => exact hwm_le_refl _

/-- C9: across any sequence of daily-balance updates and `can_trade`
checks, the high-water mark is monotonic non-decreasing; a new daily
start balance replaces it by `max(previous mark, new balance)` (or
initializes it), and `can_trade` checks never change the state. -/
theorem high_water_mark_monotonic (s : RiskState) (ops : List RiskOp) :
    hwm_le s.max_drawdown_balance (riskRun s ops).max_drawdown_balance
    ∧ (∀ b : ℚ, (set_daily_start_balance s b).max_drawdown_balance
        = some (match s.max_drawdown_balance with
                | none => b
                | some m => max m b))
    ∧ (∀ b : ℚ, riskStep s (RiskOp.canTradeQuery b) = s) := by
  refine ⟨?_, ?_, fun _ => rfl⟩
  · induction ops generalizing s with
    | nil => exact hwm_le_refl _
    | cons op rest ih =>
      exact hwm_le_trans (hwm_le_step s op) (ih (riskStep s op))
  · intro b
    cases hm : s.max_drawdown_balance <;>
      simp [set_daily_start_balance, hm]

/-- C10: before `set_daily_start_balance` is ever called, both risk
checks report a loss of 0 and allow trading, and `can_trade` returns
success ("All risk checks passed") for every balance: the gate is
permissive until the daily balance is first set. -/
theorem risk_gate_permissive_before_first_day
    (max_daily_loss_percent max_drawdown_percent current_balance : ℚ) :
    check_daily_loss_limit max_daily_loss_percent initialRiskState
        current_balance = (true, 0)
    ∧ check_max_drawdown max_drawdown_percent initialRiskState
        current_balance = (true, 0)
    ∧ can_trade max_daily_loss_percent max_drawdown_percent initialRiskState
        current_balance = (true, RiskReason.allRiskChecksPassed) :=
  ⟨rfl, rfl, rfl⟩

/-- The aggregate of the per-event reaction samples: frequency of >1%
gains, average qualifying gain, average negative drawdown, and the
price-pattern score. -/
structure ReactionStats where
  frequency : ℚ
  avg_gain : ℚ
  avg_drawdown : ℚ
  price_score : ℚ
deriving DecidableEq, Repr

/-- The statistics block shared verbatim by
`StockAnalyzer.analyze_stock_earnings` (`analyzer.py` lines 283-295) and
`FullBacktester.analyze_stock_history` (`backtest_full.py` lines
160-169): filter gains above 0.01 and drawdowns below 0, take frequency
and guarded means (0 for no qualifying gain, -0.05 for no negative
drawdown), and multiply for the price score. -/
def reaction_statistics (all_gains all_drawdowns : List ℚ) : ReactionStats :=
  let positive_gains := all_gains.filter (fun g => decide (1/100 < g))
  let negative_drawdowns := all_drawdowns.filter (fun d => decide (d < 0))
  let frequency :=
    if all_gains = [] then 0
    else (positive_gains.length : ℚ) / (all_gains.length : ℚ)
  let avg_gain :=
    if positive_gains = [] then 0
    else positive_gains.sum / (positive_gains.length : ℚ)
  let avg_drawdown :=
    if negative_drawdowns = [] then -(1/20)
    else negative_drawdowns.sum / (negative_drawdowns.length : ℚ)
  { frequency := frequency, avg_gain := avg_gain,
    avg_drawdown := avg_drawdown, price_score := frequency * avg_gain }

/-- C2: for a non-empty gain list, frequency is the count of samples
with gain above 0.01 divided by the total count; the average gain is the
mean over only those samples (0 when none qualify); the average drawdown
is the mean over only samples with negative drawdown (-0.05 when none
qualify); and the price score is frequency times average gain. -/
theorem reaction_statistics_spec (all_gains all_drawdowns : List ℚ)
    (h : all_gains ≠ []) :
    (reaction_statistics all_gains all_drawdowns).frequency
      = (((all_gains.countP fun g => decide (1/100 < g)) : ℕ) : ℚ)
        / (all_gains.length : ℚ)
    ∧ ((all_gains.filter fun g => decide (1/100 < g)) = [] →
        (reaction_statistics all_gains all_drawdowns).avg_gain = 0)
    ∧ ((all_gains.filter fun g => decide (1/100 < g)) ≠ [] →
        (reaction_statistics all_gains all_drawdowns).avg_gain
          = (all_gains.filter fun g => decide (1/100 < g)).sum
            / (((all_gains.filter fun g => decide (1/100 < g)).length : ℕ) : ℚ))
    ∧ ((all_drawdowns.filter fun d => decide (d < 0)) = [] →
        (reaction_statistics all_gains all_drawdowns).avg_drawdown = -(1/20))
    ∧ ((all_drawdowns.filter fun d => decide (d < 0)) ≠ [] →
        (reaction_statistics all_gains all_drawdowns).avg_drawdown
          = (all_drawdowns.filter fun d => decide (d < 0)).sum
            / (((all_drawdowns.filter fun d => decide (d < 0)).length : ℕ) : ℚ))
    ∧ (reaction_statistics all_gains all_drawdowns).price_score
      = (reaction_statistics all_gains all_drawdowns).frequency
        * (reaction_statistics all_gains all_drawdowns).avg_gain := by
  refine ⟨?_, ?_, ?_, ?_, ?_, rfl⟩
  · simp only [reaction_statistics, if_neg h, List.countP_eq_length_filter]
  · intro hf; simp only [reaction_statistics, if_pos hf]
  · intro hf; simp only [reaction_statistics, if_neg hf]
  · intro hf; simp only [reaction_statistics, if_pos hf]
  · intro hf; simp only [reaction_statistics, if_neg hf]

/-- Gains of the spec's worked scenario 1. -/
def exampleGains : List ℚ := [5/100, -(2/100), 3/100, 15/1000]

/-- Drawdowns of the spec's worked scenario 1. -/
def exampleDrawdowns : List ℚ := [-(2/100), -(6/100), -(1/100), -(3/100)]

/-- C2 witness: the statistics equalities instantiated at the spec's
scenario-1 sample lists. -/
theorem reaction_statistics_spec_witness :
    exampleGains ≠ [] ∧
      ((reaction_statistics exampleGains exampleDrawdowns).frequency
        = (((exampleGains.countP fun g => decide (1/100 < g)) : ℕ) : ℚ)
          / (exampleGains.length : ℚ)
      ∧ ((exampleGains.filter fun g => decide (1/100 < g)) = [] →
          (reaction_statistics exampleGains exampleDrawdowns).avg_gain = 0)
      ∧ ((exampleGains.filter fun g => decide (1/100 < g)) ≠ [] →
          (reaction_statistics exampleGains exampleDrawdowns).avg_gain
            = (exampleGains.filter fun g => decide (1/100 < g)).sum
              / (((exampleGains.filter fun g => decide (1/100 < g)).length : ℕ) : ℚ))
      ∧ ((exampleDrawdowns.filter fun d => decide (d < 0)) = [] →
          (reaction_statistics exampleGains exampleDrawdowns).avg_drawdown = -(1/20))
      ∧ ((exampleDrawdowns.filter fun d => decide (d < 0)) ≠ [] →
          (reaction_statistics exampleGains exampleDrawdowns).avg_drawdown
            = (exampleDrawdowns.filter fun d => decide (d < 0)).sum
              / (((exampleDrawdowns.filter fun d => decide (d < 0)).length : ℕ) : ℚ))
      ∧ (reaction_statistics exampleGains exampleDrawdowns).price_score
        = (reaction_statistics exampleGains exampleDrawdowns).frequency
          * (reaction_statistics exampleGains exampleDrawdowns).avg_gain) :=
  ⟨by decide, reaction_statistics_spec exampleGains exampleDrawdowns (by decide)⟩

/-- C7: for every accepted (non-empty) gain list, the frequency lies in
[0, 1] and the price score is non-negative, since the average-gain
filter only admits samples above 0.01. -/
theorem frequency_bounds_price_score_nonneg (all_gains all_drawdowns : List ℚ)
    (h : all_gains ≠ []) :
    0 ≤ (reaction_statistics all_gains all_drawdowns).frequency
    ∧ (reaction_statistics all_gains all_drawdowns).frequency ≤ 1
    ∧ 0 ≤ (reaction_statistics all_gains all_drawdowns).price_score := by
  have hlen : 0 < (all_gains.length : ℚ) := by
    exact_mod_cast List.length_pos.mpr h
  have hfreq0 : (0:ℚ)
      ≤ ((all_gains.filter fun g => decide (1/100 < g)).length : ℚ)
        / (all_gains.length : ℚ) :=
    div_nonneg (Nat.cast_nonneg _) (Nat.cast_nonneg _)
  have hfreq1 : ((all_gains.filter fun g => decide (1/100 < g)).length : ℚ)
      / (all_gains.length : ℚ) ≤ 1 := by
    rw [div_le_one hlen]
    exact_mod_cast List.length_filter_le _ _
  have hgain : (0:ℚ) ≤ (reaction_statistics all_gains all_drawdowns).avg_gain := by
    simp only [reaction_statistics]
    split_ifs with hf
    · exact le_refl 0
    · apply div_nonneg
      · apply List.sum_nonneg
        intro g hg
        have hmem := (List.mem_filter.mp hg).2
        have hgt : 1/100 < g := of_decide_eq_true hmem
        linarith
      · exact Nat.cast_nonneg _
  refine ⟨?_, ?_, ?_⟩
  · simpa only [reaction_statistics, if_neg h] using hfreq0
  · simpa only [reaction_statistics, if_neg h] using hfreq1
  · have hps : (reaction_statistics all_gains all_drawdowns).price_score
        = (reaction_statistics all_gains all_drawdowns).frequency
          * (reaction_statistics all_gains all_drawdowns).avg_gain := rfl
    rw [hps]
    apply mul_nonneg
    · simpa only [reaction_statistics, if_neg h] using hfreq0
    · exact hgain

/-- C7 witness: the bounds instantiated at the spec's scenario-1 sample
lists. -/
theorem frequency_bounds_witness :
    exampleGains ≠ [] ∧
      (0 ≤ (reaction_statistics exampleGains exampleDrawdowns).frequency
      ∧ (reaction_statistics exampleGains exampleDrawdowns).frequency ≤ 1
      ∧ 0 ≤ (reaction_statistics exampleGains exampleDrawdowns).price_score) :=
  ⟨by decide, frequency_bounds_price_score_nonneg exampleGains exampleDrawdowns
    (by decide)⟩

/-- The fundamental metrics dictionary of
`StockAnalyzer.get_fundamental_metrics` (`analyzer.py` lines 92-97). -/
structure FundamentalSnapshot where
  eps_beat_rate : ℚ
  avg_eps_surprise_pct : ℚ
  revenue_growth_trend : ℚ
  analyst_score : ℚ
deriving DecidableEq, Repr

/-- The EPS-surprise normalization
`min(max(avg_eps_surprise_pct / 40.0 + 0.5, 0.0), 1.0)` (`analyzer.py`
line 302, `backtest_full.py` line 187). -/
def normalized_eps_surprise (s : ℚ) : ℚ := min (max (s / 40 + 1/2) 0) 1

/-- The weighted fundamental score (`analyzer.py` lines 304-309,
`backtest_full.py` lines 189-194): 50% EPS beat rate, 30% normalized
surprise, 15% analyst score, 5% revenue growth trend. -/
def fundamental_score (f : FundamentalSnapshot) : ℚ :=
  f.eps_beat_rate * (1/2)
    + normalized_eps_surprise f.avg_eps_surprise_pct * (3/10)
    + f.analyst_score * (3/20)
    + f.revenue_growth_trend * (1/20)

/-- C6: for every snapshot whose eps_beat_rate, revenue_growth_trend and
analyst_score lie in [0, 1] and any avg_eps_surprise_pct, the
fundamental score lies in [0, 1]. -/
theorem fundamental_score_bounded (f : FundamentalSnapshot)
    (h1 : 0 ≤ f.eps_beat_rate) (h2 : f.eps_beat_rate ≤ 1)
    (h3 : 0 ≤ f.revenue_growth_trend) (h4 : f.revenue_growth_trend ≤ 1)
    (h5 : 0 ≤ f.analyst_score) (h6 : f.analyst_score ≤ 1) :
    0 ≤ fundamental_score f ∧ fundamental_score f ≤ 1 := by
  have hn0 : 0 ≤ normalized_eps_surprise f.avg_eps_surprise_pct :=
    le_min (le_max_right _ _) (by norm_num)
  have hn1 : normalized_eps_surprise f.avg_eps_surprise_pct ≤ 1 :=
    min_le_right _ _
  unfold fundamental_score
  constructor <;> nlinarith [hn0, hn1]

/-- The neutral default snapshot (0.5, 0.0, 0.5, 0.5) of
`get_fundamental_metrics`. -/
def neutralSnapshot : FundamentalSnapshot :=
  { eps_beat_rate := 1/2, avg_eps_surprise_pct := 0,
    revenue_growth_trend := 1/2, analyst_score := 1/2 }

/-- C6 witness: the bound instantiated at the neutral default
snapshot. -/
theorem fundamental_score_bounded_witness :
    (0 ≤ neutralSnapshot.eps_beat_rate ∧ neutralSnapshot.eps_beat_rate ≤ 1) ∧
      (0 ≤ fundamental_score neutralSnapshot
        ∧ fundamental_score neutralSnapshot ≤ 1) :=
  ⟨⟨by norm_num [neutralSnapshot], by norm_num [neutralSnapshot]⟩,
    fundamental_score_bounded neutralSnapshot
      (by norm_num [neutralSnapshot]) (by norm_num [neutralSnapshot])
      (by norm_num [neutralSnapshot]) (by norm_num [neutralSnapshot])
      (by norm_num [neutralSnapshot]) (by norm_num [neutralSnapshot])⟩

/-- One executed trade as consumed by the statistics blocks: the
per-share P&L (`pnl`) and the position P&L (`trade_pnl`). -/
structure TradeRecord where
  pnl : ℚ
  trade_pnl : ℚ
deriving DecidableEq, Repr

/-- The summary statistics of a backtest run. -/
structure BacktestStats where
  num_trades : ℕ
  num_wins : ℕ
  num_losses : ℕ
  win_rate : ℚ
  avg_win : ℚ
  avg_loss : ℚ
  profit_factor : ℚ
deriving DecidableEq, Repr

/-- The statistics block shared by `FullBacktester.calculate_statistics`
(`backtest_full.py` lines 459-467) and `Backtester.backtest_strategy`
(`backtester.py` lines 223-231): wins are trades with `pnl > 0`, losses
those with `pnl <= 0`; `avg_win`/`avg_loss` are the means of `trade_pnl`
over those groups (0 if a group is empty); the profit factor is
`abs(avg_win / avg_loss)` guarded by `avg_loss != 0`, else 0. -/
def calculate_statistics (trades : List TradeRecord) : BacktestStats :=
  let wins := trades.filter (fun t => decide (0 < t.pnl))
  let losses := trades.filter (fun t => decide (t.pnl ≤ 0))
  let win_rate :=
    if trades = [] then 0
    else ((wins.length : ℚ) / (trades.length : ℚ)) * 100
  let avg_win :=
    if wins = [] then 0
    else (wins.map TradeRecord.trade_pnl).sum / (wins.length : ℚ)
  let avg_loss :=
    if losses = [] then 0
    else (losses.map TradeRecord.trade_pnl).sum / (losses.length : ℚ)
  let profit_factor := if avg_loss ≠ 0 then |avg_win / avg_loss| else 0
  { num_trades := trades.length, num_wins := wins.length,
    num_losses := losses.length, win_rate := win_rate,
    avg_win := avg_win, avg_loss := avg_loss,
    profit_factor := profit_factor }

/-- C8: the profit factor equals the absolute value of `avg_win`
divided by `avg_loss`, where `avg_win` is the mean position P&L over
trades with positive per-share pnl and `avg_loss` the mean over the
rest; when `avg_loss` is 0 the profit factor is the defined default 0
(no division-by-zero failure: the function is total). -/
theorem profit_factor_spec (trades : List TradeRecord) :
    ((calculate_statistics trades).avg_loss = 0 →
      (calculate_statistics trades).profit_factor = 0)
    ∧ ((calculate_statistics trades).avg_loss ≠ 0 →
      (calculate_statistics trades).profit_factor
        = |(calculate_statistics trades).avg_win
            / (calculate_statistics trades).avg_loss|)
    ∧ (calculate_statistics trades).avg_win
        * (((trades.countP fun t => decide (0 < t.pnl)) : ℕ) : ℚ)
      = ((trades.filter fun t => decide (0 < t.pnl)).map
          TradeRecord.trade_pnl).sum
    ∧ (calculate_statistics trades).avg_loss
        * (((trades.countP fun t => decide (t.pnl ≤ 0)) : ℕ) : ℚ)
      = ((trades.filter fun t => decide (t.pnl ≤ 0)).map
          TradeRecord.trade_pnl).sum := by
  have hpf : (calculate_statistics trades).profit_factor
      = if (calculate_statistics trades).avg_loss ≠ 0
        then |(calculate_statistics trades).avg_win
                / (calculate_statistics trades).avg_loss|
        else 0 := rfl
  refine ⟨?_, ?_, ?_, ?_⟩
  · intro h0
    rw [hpf, if_neg (not_not_intro h0)]
  · intro h0
    rw [hpf, if_pos h0]
  · simp only [calculate_statistics, List.countP_eq_length_filter]
    split_ifs with hf
    · simp [hf]
    · rw [div_mul_cancel₀]
      exact_mod_cast fun hc => hf (List.length_eq_zero.mp (by exact_mod_cast hc))
  · simp only [calculate_statistics, List.countP_eq_length_filter]
    split_ifs with hf
    · simp [hf]
    · rw [div_mul_cancel₀]
      exact_mod_cast fun hc => hf (List.length_eq_zero.mp (by exact_mod_cast hc))

/-- Concrete trades for the C8 witness: one winner, one loser. -/
def exampleTrades : List TradeRecord :=
  [{ pnl := 1, trade_pnl := 10 }, { pnl := -2, trade_pnl := -20 }]

/-- C8 witness: the profit-factor equation instantiated at a concrete
two-trade list with a non-zero average loss. -/
theorem profit_factor_spec_witness :
    (calculate_statistics exampleTrades).avg_loss ≠ 0 ∧
      (calculate_statistics exampleTrades).profit_factor
        = |(calculate_statistics exampleTrades).avg_win
            / (calculate_statistics exampleTrades).avg_loss| :=
  ⟨by norm_num [calculate_statistics, exampleTrades, List.filter],
    (profit_factor_spec exampleTrades).2.1
      (by norm_num [calculate_statistics, exampleTrades, List.filter])⟩

/-- The maximum of the highs of a window of bars
(`window['High'].max()`); 0 on an empty window (never read there). -/
def maxHigh : List Bar → ℚ
  | [] => 0
  | b :: bs => bs.foldl (fun acc x => max acc x.high) b.high

/-- The minimum of the lows of a window of bars
(`window['Low'].min()`); 0 on an empty window (never read there). -/
def minLow : List Bar → ℚ
  | [] => 0
  | b :: bs => bs.foldl (fun acc x => min acc x.low) b.low

/-- One post-earnings reaction sample: forward-window gain and drawdown
relative to the earnings-day close. -/
structure ReactionSample where
  gain_pct : ℚ
  drawdown_pct : ℚ
deriving DecidableEq, Repr

/-- Per-event sampling of `StockAnalyzer.analyze_stock_earnings`
(`analyzer.py` lines 255-273): given the earnings-day close and the
next-5-trading-day window, skip the event only when the window is empty
(`if window.empty: continue`); otherwise sample the percentage gain to
the window's highest high and the percentage drawdown to its lowest
low. -/
def sample_real_window (t_close : ℚ) (window : List Bar) :
    Option ReactionSample :=
  if window = [] then none
  else some { gain_pct := (maxHigh window - t_close) / t_close,
              drawdown_pct := (minLow window - t_close) / t_close }

/-- Per-event sampling of `FullBacktester.analyze_stock_history`
(`backtest_full.py` lines 136-150): same computation, but the event is
skipped when the forward window has fewer than 3 trading days
(`if len(future_dates) < 3: continue`). -/
def sample_est_window (t_close : ℚ) (window : List Bar) :
    Option ReactionSample :=
  if window.length < 3 then none
  else some { gain_pct := (maxHigh window - t_close) / t_close,
              drawdown_pct := (minLow window - t_close) / t_close }

/-- `StockAnalyzer.analyze_stock_earnings` (`analyzer.py` lines
234-295) over abstract history access: filter the earnings dates to
those on or after the cutoff, require at least 4, sample each event's
forward window (empty windows skipped), require at least one usable
sample, and aggregate. `hist_at` yields an event's earnings-day close
and next-5-trading-day window. -/
def analyze_stock_earnings (earnings_dates : List ℤ) (cutoff : ℤ)
    (hist_at : ℤ → ℚ × List Bar) : Option ReactionStats :=
  let relevant := earnings_dates.filter (fun d => decide (cutoff ≤ d))
  if relevant.length < 4 then none
  else
    let samples := relevant.filterMap
      (fun d => sample_real_window (hist_at d).1 (hist_at d).2)
    if samples.map ReactionSample.gain_pct = [] then none
    else some (reaction_statistics (samples.map ReactionSample.gain_pct)
      (samples.map ReactionSample.drawdown_pct))

/-- The backward 90-day stepping loop of
`FullBacktester.analyze_stock_history` (`backtest_full.py` lines 77-85):
`while current_est >= cutoff: append(current_est); current_est -= 90`.
The fuel argument bounds the recursion; the loop runs at most 9 times
since the cutoff is 730 days wide. -/
def estDatesLoop (cutoff : ℤ) : ℕ → ℤ → List ℤ
  | 0, _ => []
  | n + 1, current =>
    if cutoff ≤ current then current :: estDatesLoop cutoff n (current - 90)
    else []

/-- The estimated past quarterly earnings dates for an upcoming
earnings date: step back 90 days at a time down to 730 days before the
upcoming date (`backtest_full.py` lines 77-85). -/
def est_past_earnings_dates (upcoming : ℤ) : List ℤ :=
  estDatesLoop (upcoming - 730) 100 (upcoming - 90)

theorem estDatesLoop_shift (c t : ℤ) :
    ∀ (n : ℕ) (x : ℤ),
      estDatesLoop (c + t) n (x + t)
        = (estDatesLoop c n x).map (fun y => y + t) := by
  intro n
  induction n with
  | zero => intro x; rfl
  | succ n ih =>
    intro x
    simp only [estDatesLoop]
    by_cases h : c ≤ x
    · rw [if_pos (by linarith), if_pos h, List.map_cons]
      have hx : x + t - 90 = x - 90 + t := by ring
      rw [hx, ih]
    · rw [if_neg (fun hc => h (by linarith)), if_neg h]
      rfl

theorem est_dates_length (upcoming : ℤ) :
    (est_past_earnings_dates upcoming).length = 8 := by
  have h1 : upcoming - 730 = -730 + upcoming := by ring
  have h2 : upcoming - 90 = -90 + upcoming := by ring
  rw [est_past_earnings_dates, h1, h2, estDatesLoop_shift, List.length_map]
  decide

/-- `FullBacktester.analyze_stock_history` (`backtest_full.py` lines
61-169) over abstract history access: estimate past earnings dates,
require at least 3, sample each event's forward window (windows shorter
than 3 days skipped), require at least 3 usable samples, and
aggregate. -/
def analyze_stock_history (upcoming : ℤ) (hist_at : ℤ → ℚ × List Bar) :
    Option ReactionStats :=
  let past := est_past_earnings_dates upcoming
  if past.length < 3 then none
  else
    let samples := past.filterMap
      (fun d => sample_est_window (hist_at d).1 (hist_at d).2)
    let gains := samples.map ReactionSample.gain_pct
    if gains = [] ∨ gains.length < 3 then none
    else some (reaction_statistics gains
      (samples.map ReactionSample.drawdown_pct))

/-- A forward window with a single trading day. -/
def oneDayWindow : List Bar := [{ high := 105, low := 95, close := 100 }]

/-- C4 counterexample: in the real-calendar path
(`StockAnalyzer.analyze_stock_earnings`), an event whose forward window
has only 1 trading day (fewer than 3) still produces a reaction sample,
so the claim that both analysis paths discard events with fewer than 3
forward days is false on this input. -/
theorem short_window_real_path_counterexample :
    oneDayWindow.length < 3 ∧
      sample_real_window 100 oneDayWindow
        = some { gain_pct := 1/20, drawdown_pct := -(1/20) } := by
  constructor
  · decide
  · norm_num [sample_real_window, oneDayWindow, maxHigh, minLow]

/-- C4 (amended): an event whose forward window has fewer than 3
trading days produces no reaction sample in the estimated-earnings path
(`backtest_full.py`); in the real-calendar path (`analyzer.py`) an
event is skipped exactly when its forward window is empty, so windows
of 1 or 2 days still produce samples there. -/
theorem short_window_policy (t_close : ℚ) (window : List Bar) :
    (window.length < 3 → sample_est_window t_close window = none)
    ∧ (sample_real_window t_close window = none ↔ window = []) := by
  constructor
  · intro h
    rw [sample_est_window, if_pos h]
  · constructor
    · intro h
      by_cases hw : window = []
      · exact hw
      · rw [sample_real_window, if_neg hw] at h; cases h
    · intro h
      rw [sample_real_window, if_pos h]

/-- C4 witness: a 1-day window is discarded by the estimated-earnings
path, and the real path discards exactly the empty window. -/
theorem short_window_policy_witness :
    (oneDayWindow.length < 3 ∧ sample_est_window 100 oneDayWindow = none)
    ∧ (sample_real_window 100 ([] : List Bar) = none ↔ ([] : List Bar) = []) :=
  ⟨⟨by decide, (short_window_policy 100 oneDayWindow).1 (by decide)⟩,
    (short_window_policy 100 ([] : List Bar)).2⟩

theorem analyze_stock_earnings_insufficient (earnings_dates : List ℤ)
    (cutoff : ℤ) (hist_at : ℤ → ℚ × List Bar)
    (h : (earnings_dates.filter fun d => decide (cutoff ≤ d)).length < 4) :
    analyze_stock_earnings earnings_dates cutoff hist_at = none := by
  simp only [analyze_stock_earnings]
  rw [if_pos h]

/-- C5: the real-calendar analysis returns None whenever fewer than 4
earnings events lie within the trailing window, and any analysis that
returns a result had at least 4 such events; the estimated-earnings
path always generates exactly 8 past event dates, so its analyses also
proceed only with at least 4 events. -/
theorem insufficient_history_guard :
    (∀ (earnings_dates : List ℤ) (cutoff : ℤ) (hist_at : ℤ → ℚ × List Bar),
      (earnings_dates.filter fun d => decide (cutoff ≤ d)).length < 4 →
      analyze_stock_earnings earnings_dates cutoff hist_at = none)
    ∧ (∀ (earnings_dates : List ℤ) (cutoff : ℤ)
        (hist_at : ℤ → ℚ × List Bar) (r : ReactionStats),
        analyze_stock_earnings earnings_dates cutoff hist_at = some r →
        4 ≤ (earnings_dates.filter fun d => decide (cutoff ≤ d)).length)
    ∧ (∀ upcoming : ℤ, (est_past_earnings_dates upcoming).length = 8)
    ∧ (∀ (upcoming : ℤ) (hist_at : ℤ → ℚ × List Bar) (r : ReactionStats),
        analyze_stock_history upcoming hist_at = some r →
        4 ≤ (est_past_earnings_dates upcoming).length) := by
  refine ⟨analyze_stock_earnings_insufficient, ?_, est_dates_length, ?_⟩
  · intro dates cutoff hist_at r hsome
    by_contra hlt
    push_neg at hlt
    rw [analyze_stock_earnings_insufficient dates cutoff hist_at hlt] at hsome
    cases hsome
  · intro upcoming hist_at r _
    rw [est_dates_length]
    norm_num

/-- C5 witness: an empty earnings calendar (0 < 4 relevant events)
yields None, and the estimated path generates 8 events for a concrete
upcoming date. -/
theorem insufficient_history_guard_witness :
    (([] : List ℤ).filter fun d => decide ((0:ℤ) ≤ d)).length < 4 ∧
      analyze_stock_earnings [] 0 (fun _ => (0, [])) = none ∧
      (est_past_earnings_dates 0).length = 8 :=
  ⟨by decide,
    insufficient_history_guard.1 [] 0 (fun _ => (0, [])) (by decide),
    insufficient_history_guard.2.2.1 0⟩

end Codi
